import Mathlib

/-!
Verification of the PYRAMDS PIXIE list-mode parser (`pyramds.py`) against its
natural-language specification.  The development shallowly embeds the Python
code: `PyramdsParser` becomes `ParserState`, `get_bin_info` becomes a pure
function from a modelled filesystem to an updated state paired with an
optional raised exception, the Python string library calls (`str.split`,
slicing, `int`, `datetime.strptime`, `fnmatch`, `os.path`) become executable
Lean functions with the same observable behaviour on the inputs the program
feeds them.
-/

namespace Pyramds

/-! ### Python string primitives -/

/-- The whitespace characters recognised by Python's `str.split()` and
`str.strip()` for ASCII input. -/
def pyIsSpace (c : Char) : Bool :=
  c = ' ' || c = '\t' || c = '\n' || c = '\r' || c = '\x0b' || c = '\x0c'

/-- Accumulator-based tokenizer: the characters of the current (reversed)
token are carried in `acc`. -/
def pySplitAux : List Char → List Char → List String
  | [], acc => if acc = [] then [] else [⟨acc.reverse⟩]
  | c :: r, acc =>
    if pyIsSpace c then
      (if acc = [] then pySplitAux r [] else ⟨acc.reverse⟩ :: pySplitAux r [])
    else pySplitAux r (c :: acc)

/-- Python `str.split()` with no argument: split on runs of whitespace,
discarding empty tokens. -/
def pySplit (s : String) : List String := pySplitAux s.toList []

/-- Decimal digit value of a character, `none` if it is not an ASCII digit. -/
def pDig (c : Char) : Option Nat :=
  if '0' ≤ c ∧ c ≤ '9' then some (c.toNat - 48) else none

def digitsValAux : List Char → Nat → Option Nat
  | [], acc => some acc
  | c :: r, acc =>
    match pDig c with
    | some d => digitsValAux r (10 * acc + d)
    | none => none

def digitsVal : List Char → Option Nat
  | [] => none
  | l => digitsValAux l 0

/-- Python `int(s)`: strip surrounding whitespace, optional sign, then a
nonempty run of decimal digits. -/
def pyInt (s : String) : Option Int :=
  let l := ((s.toList.dropWhile pyIsSpace).reverse.dropWhile pyIsSpace).reverse
  match l with
  | '-' :: ds => (digitsVal ds).map (fun n => -(n : Int))
  | '+' :: ds => (digitsVal ds).map (fun n => (n : Int))
  | ds => (digitsVal ds).map (fun n => (n : Int))

/-- Python slice `s[23:-2]`: the characters with index `23 ≤ i < len s - 2`. -/
def pySlice23m2 (s : String) : String :=
  ⟨(s.toList.take (s.toList.length - 2)).drop 23⟩

/-- Python slice `s[:-k]`: drop the last `k` characters (empty if `len ≤ k`). -/
def pyDropEnd (k : Nat) (s : String) : String :=
  ⟨s.toList.take (s.toList.length - k)⟩

/-- Python `format(n, "0>4")` as used in `_get_active_file_path`:
the decimal rendering of `n`, left-padded with `0` to width 4. -/
def pyPad4 (n : Int) : String :=
  ⟨List.leftpad 4 '0' (toString n).toList⟩

/-! ### `datetime.strptime` for the fixed format of `get_bin_info`

The source calls `datetime.strptime(date_str, date_format)` with
`date_format` the fixed string for 12-hour time, AM/PM marker, abbreviated
weekday, abbreviated month, day and 4-digit year.  The embedding below parses
exactly that format, mirroring CPython's `_strptime`: 1-2 digit numeric
fields with the ranges enforced by its regular expressions, a whitespace run
for each format-string blank, case-insensitive month/weekday/AM-PM names, a
4-digit year, a trailing \"unconverted data\" check, and the final range
validation performed by the `datetime` constructor (`MINYEAR`, days in month,
seconds below 60).  Parsing is greedy on digit runs, which agrees with the
regex on every input accepted or rejected by this format. -/

structure PyDateTime where
  year : Nat
  month : Nat
  day : Nat
  hour : Nat
  minute : Nat
  second : Nat
  deriving DecidableEq

/-- Greedy 1-2 digit number. -/
def p2 : List Char → Option (Nat × List Char)
  | [] => none
  | c :: r =>
    match pDig c with
    | none => none
    | some d =>
      match r with
      | c2 :: r2 =>
        match pDig c2 with
        | some d2 => some (10 * d + d2, r2)
        | none => some (d, r)
      | [] => some (d, [])

/-- Exactly 4 digits (the `%Y` directive). -/
def p4 : List Char → Option (Nat × List Char)
  | c1 :: c2 :: c3 :: c4 :: r =>
    match pDig c1, pDig c2, pDig c3, pDig c4 with
    | some d1, some d2, some d3, some d4 =>
      some (1000 * d1 + 100 * d2 + 10 * d3 + d4, r)
    | _, _, _, _ => none
  | _ => none

/-- A literal character of the format string. -/
def pLit (c : Char) : List Char → Option (List Char)
  | x :: r => if x = c then some r else none
  | [] => none

/-- A blank in the format string: one or more whitespace characters. -/
def pWs : List Char → Option (List Char)
  | c :: r => if pyIsSpace c then some (r.dropWhile pyIsSpace) else none
  | [] => none

/-- ASCII lower-casing (the `_strptime` regexes are case-insensitive). -/
def lowc (c : Char) : Char :=
  if 'A' ≤ c ∧ c ≤ 'Z' then Char.ofNat (c.toNat + 32) else c

/-- The `%p` directive: `AM`/`PM`, case-insensitively; `true` means PM. -/
def pAmPm : List Char → Option (Bool × List Char)
  | c1 :: c2 :: r =>
    if lowc c1 = 'a' ∧ lowc c2 = 'm' then some (false, r)
    else if lowc c1 = 'p' ∧ lowc c2 = 'm' then some (true, r)
    else none
  | _ => none

def weekdayAbbrs : List String := ["Mon", "Tue", "Wed", "Thu", "Fri", "Sat", "Sun"]

def monthAbbrs : List String :=
  ["Jan", "Feb", "Mar", "Apr", "May", "Jun", "Jul", "Aug", "Sep", "Oct", "Nov", "Dec"]

/-- The `%a` directive: an abbreviated weekday name; the parsed value is
discarded by `datetime.strptime`. -/
def pWeekday : List Char → Option (List Char)
  | c1 :: c2 :: c3 :: r =>
    if (weekdayAbbrs.map (fun s => s.toList.map lowc)).contains [lowc c1, lowc c2, lowc c3]
    then some r else none
  | _ => none

/-- The `%b` directive: an abbreviated month name, yielding the month number. -/
def pMonth : List Char → Option (Nat × List Char)
  | c1 :: c2 :: c3 :: r =>
    match (monthAbbrs.map (fun s => s.toList.map lowc)).findIdx?
        (fun m => m == [lowc c1, lowc c2, lowc c3]) with
    | some i => some (i + 1, r)
    | none => none
  | _ => none

def isLeapYear (y : Nat) : Bool :=
  y % 4 = 0 && (y % 100 ≠ 0 || y % 400 = 0)

def daysInMonth (m y : Nat) : Nat :=
  if m = 2 then (if isLeapYear y then 29 else 28)
  else if m = 4 ∨ m = 6 ∨ m = 9 ∨ m = 11 then 30 else 31

/-- CPython's conversion of a `%I` hour and `%p` marker to a 24-hour value. -/
def hour24 (pm : Bool) (h12 : Nat) : Nat :=
  if pm then (if h12 = 12 then 12 else h12 + 12)
  else (if h12 = 12 then 0 else h12)

/-- The leading `%I:%M:%S` portion of the format, with the numeric ranges
enforced by the `_strptime` regular expressions. -/
def pTime (l : List Char) : Option (Nat × Nat × Nat × List Char) :=
  (p2 l).bind fun (h12, r) =>
  if h12 = 0 ∨ 12 < h12 then none else
  (pLit ':' r).bind fun r =>
  (p2 r).bind fun (mi, r) =>
  if 59 < mi then none else
  (pLit ':' r).bind fun r =>
  (p2 r).bind fun (se, r) =>
  if 61 < se then none else
  some (h12, mi, se, r)

/-- The ` %p %a,` portion of the format. -/
def pMarkers (l : List Char) : Option (Bool × List Char) :=
  (pWs l).bind fun r =>
  (pAmPm r).bind fun (pm, r) =>
  (pWs r).bind fun r =>
  (pWeekday r).bind fun r =>
  (pLit ',' r).bind fun r =>
  some (pm, r)

/-- The ` %b %d, %Y` portion of the format. -/
def pMDY (l : List Char) : Option (Nat × Nat × Nat × List Char) :=
  (pWs l).bind fun r =>
  (pMonth r).bind fun (mo, r) =>
  (pWs r).bind fun r =>
  (p2 r).bind fun (da, r) =>
  if da = 0 ∨ 31 < da then none else
  (pLit ',' r).bind fun r =>
  (pWs r).bind fun r =>
  (p4 r).bind fun (yr, r) =>
  some (mo, da, yr, r)

/-- `datetime.strptime(s, date_format)` for the parser's fixed
12-hour-time/AM-PM/weekday/month/day/year format, returning `none` where
Python raises `ValueError`.  The trailing checks are the \"unconverted data
remains\" test and the range validation done by the `datetime` constructor. -/
def strptimeRun (s : String) : Option PyDateTime :=
  (pTime s.toList).bind fun (h12, mi, se, r) =>
  (pMarkers r).bind fun (pm, r) =>
  (pMDY r).bind fun (mo, da, yr, r) =>
  if r ≠ [] then none else
  if yr = 0 then none else
  if 59 < se then none else
  if daysInMonth mo yr < da then none else
  some { year := yr, month := mo, day := da,
         hour := hour24 pm h12, minute := mi, second := se }

/-! ### `os.path` and `fnmatch` -/

/-- `posixpath.dirname`: everything before the final `/`, with trailing
slashes stripped unless the head consists only of slashes. -/
def dirname (p : String) : String :=
  let l := p.toList
  let i := l.length - (l.reverse.takeWhile (fun c => ¬ c = '/')).length
  let head := l.take i
  if head ≠ [] ∧ ¬ head.all (fun c => c = '/') then
    ⟨((head.reverse.dropWhile (fun c => c = '/')).reverse)⟩
  else ⟨head⟩

/-- `posixpath.join` for the two-argument calls made by the parser. -/
def pyJoin (a b : String) : String :=
  if b.toList.take 1 = ['/'] then b
  else if a = "" ∨ a.toList.getLast? = some '/' then a ++ b
  else a ++ "/" ++ b

/-- Shell-style glob matching on `*` and `?`, the `fnmatch.fnmatch` subset
exercised by the parser (its patterns are `series_basename + \x2a. + ext`, so
only a single `*` wildcard ever occurs; `[...]` classes are not used). -/
def globMatch : List Char → List Char → Bool
  | [], [] => true
  | [], _ :: _ => false
  | '*' :: ps, [] => globMatch ps []
  | '*' :: ps, c :: s => globMatch ps (c :: s) || globMatch ('*' :: ps) s
  | '?' :: _, [] => false
  | '?' :: ps, _ :: s => globMatch ps s
  | _ :: _, [] => false
  | p :: ps, c :: s => p = c && globMatch ps s
  termination_by p s => p.length + s.length

/-- `fnmatch.fnmatch(name, pattern)` (POSIX `normcase` is the identity). -/
def fnmatch (name pattern : String) : Bool :=
  globMatch pattern.toList name.toList

/-! ### The PyTables schema classes

Each `IsDescription` subclass is a set of named column descriptors with an
element type and an explicit position. -/

inductive PyTablesColType
  | int32
  | float32
  deriving DecidableEq

structure ColDescr where
  name : String
  ctype : PyTablesColType
  pos : Nat
  deriving DecidableEq

/-- `class GammaEvent(IsDescription)`: energies of Pixie channels 0-2,
pairwise time differences, and a timestamp. -/
def GammaEvent : List ColDescr :=
  [⟨"energy_0", .int32, 0⟩, ⟨"energy_1", .int32, 1⟩, ⟨"energy_2", .int32, 2⟩,
   ⟨"deltaT_01", .float32, 3⟩, ⟨"deltaT_02", .float32, 4⟩, ⟨"deltaT_12", .float32, 5⟩,
   ⟨"timestamp", .float32, 6⟩]

/-- `class AggEvent1(IsDescription)`. -/
def AggEvent1 : List ColDescr :=
  [⟨"energy", .int32, 0⟩, ⟨"timestamp", .float32, 1⟩]

/-- `class AggEvent2(IsDescription)`. -/
def AggEvent2 : List ColDescr :=
  [⟨"energy_1", .int32, 0⟩, ⟨"energy_2", .int32, 1⟩, ⟨"timestamp", .float32, 2⟩]

/-! ### The parser state and its derived paths -/

/-- The run metadata `get_bin_info` stores in `self.times`. Python keeps the
total and live times as the raw strings taken from the info file. -/
structure Times where
  start : PyDateTime
  total : String
  live : List String
  deriving DecidableEq

/-- The observable attributes of a `PyramdsParser` instance.  `times`,
`bufheadlen`, `eventheadlen` and `chanheadlen` do not exist before the first
`get_bin_info` call, hence the `Option`. -/
structure ParserState where
  selected_data_file : String
  file_series : List String
  file_counter : Int
  buffer_no : Int
  times : Option Times
  bufheadlen : Option Int
  eventheadlen : Option Int
  chanheadlen : Option Int
  deriving DecidableEq

/-- A fresh `PyramdsParser()` with the given selected data file. -/
def mkParser (sel : String) : ParserState :=
  { selected_data_file := sel, file_series := [], file_counter := 1,
    buffer_no := 0, times := none, bufheadlen := none, eventheadlen := none,
    chanheadlen := none }

/-- `_get_series_basename`: the selected path with its final 8 characters
(4-digit series number plus extension) removed. -/
def series_basename (self : ParserState) : String :=
  pyDropEnd 8 self.selected_data_file

/-- `_get_active_file_path`: the series basename followed by the file counter
formatted with fill `0`, right alignment, width 4. -/
def active_file_path (self : ParserState) : String :=
  series_basename self ++ pyPad4 self.file_counter

/-- `_get_data_cwd`.  The source reads `parser.series_basename`, where
`parser` is the module-level global created under `if name == main`, rather
than `self.series_basename`; the embedding therefore takes the global
instance as an explicit argument and ignores `self`. -/
def data_cwd (self globalParser : ParserState) : String :=
  let _ := self
  dirname (series_basename globalParser)

/-- The exceptions `get_bin_info` can raise: `IOError` from `open`,
`IndexError` from list/token subscription, `ValueError` from `strptime` or
`int`. -/
inductive PyError
  | ioError
  | indexError (i : Nat)
  | valueError (s : String)
  deriving DecidableEq

/-- Python list subscription `l[i]` (nonnegative index). -/
def idx (l : List String) (i : Nat) : Except PyError String :=
  if i < l.length then Except.ok (l.getD i "") else Except.error (PyError.indexError i)

/-- One element of the live-time list comprehension:
`info_str_list[9 + channel].split()[2]`. -/
def chanLive (info_str_list : List String) (channel : Nat) : Except PyError String :=
  match idx info_str_list (9 + channel) with
  | Except.error e => Except.error e
  | Except.ok line => idx (pySplit line) 2

/-- `PyramdsParser.get_bin_info`.  The filesystem is modelled as a map from
path to the `readlines()` result (each line keeps its trailing newline);
`none` models a missing file.  The result pairs the state after the call
with the exception raised, if any; attribute writes that happen before a
later exception are kept, as in Python. -/
def get_bin_info (fs : String → Option (List String)) (self : ParserState) :
    ParserState × Option PyError :=
  match fs (active_file_path self ++ ".ifm") with
  | none => (self, some PyError.ioError)
  | some info_str_list =>
    match idx info_str_list 1 with
    | Except.error e => (self, some e)
    | Except.ok line1 =>
      let date_str := pySlice23m2 line1
      match strptimeRun date_str with
      | none => (self, some (PyError.valueError date_str))
      | some run_start_time =>
        match idx info_str_list 6 with
        | Except.error e => (self, some e)
        | Except.ok line6 =>
          match idx (pySplit line6) 3 with
          | Except.error e => (self, some e)
          | Except.ok total_time =>
            match chanLive info_str_list 0 with
            | Except.error e => (self, some e)
            | Except.ok live0 =>
              match chanLive info_str_list 1 with
              | Except.error e => (self, some e)
              | Except.ok live1 =>
                match chanLive info_str_list 2 with
                | Except.error e => (self, some e)
                | Except.ok live2 =>
                  match chanLive info_str_list 3 with
                  | Except.error e => (self, some e)
                  | Except.ok live3 =>
                    let tm : Times :=
                      { start := run_start_time, total := total_time,
                        live := [live0, live1, live2, live3] }
                    let self1 := { self with times := some tm }
                    match idx info_str_list 33 with
                    | Except.error e => (self1, some e)
                    | Except.ok line33 =>
                      match idx (pySplit line33) 1 with
                      | Except.error e => (self1, some e)
                      | Except.ok t33 =>
                        match pyInt t33 with
                        | none => (self1, some (PyError.valueError t33))
                        | some b =>
                          let self2 := { self1 with bufheadlen := some b }
                          match idx info_str_list 34 with
                          | Except.error e => (self2, some e)
                          | Except.ok line34 =>
                            match idx (pySplit line34) 1 with
                            | Except.error e => (self2, some e)
                            | Except.ok t34 =>
                              match pyInt t34 with
                              | none => (self2, some (PyError.valueError t34))
                              | some ev =>
                                let self3 := { self2 with eventheadlen := some ev }
                                ({ self3 with chanheadlen := some 2 }, none)

/-- `PyramdsParser.get_file_series`.  `listdir` models the contents of
`os.listdir(self.data_cwd)`; `globalParser` is the module-level instance
consulted by the `data_cwd` property.  Returns the value of the method and
the state after the call. -/
def get_file_series (globalParser : ParserState) (listdir : List String)
    (ext : String) (self : ParserState) : List String × ParserState :=
  let self0 := { self with file_series := ([] : List String) }
  let file_wildcard := series_basename self0 ++ "*." ++ ext
  let files := listdir.filter
    (fun file => fnmatch (pyJoin (data_cwd self0 globalParser) file) file_wildcard)
  (files, { self0 with file_series := files })

/-! ### Characterising a successful `get_bin_info` run -/

/-- The whitespace token `j` of line `i` of an info file (empty string when
out of range; used only at in-range positions). -/
def tokAt (lines : List String) (i j : Nat) : String :=
  (pySplit (lines.getD i "")).getD j ""

/-- The info file is well-formed for `get_bin_info`: every subscript taken by
the method is in range, the date substring of line 1 parses, and the two
header-length tokens parse as integers. -/
def wellFormedInfo (lines : List String) : Bool :=
  decide (35 ≤ lines.length)
  && (strptimeRun (pySlice23m2 (lines.getD 1 ""))).isSome
  && decide (4 ≤ (pySplit (lines.getD 6 "")).length)
  && decide (3 ≤ (pySplit (lines.getD 9 "")).length)
  && decide (3 ≤ (pySplit (lines.getD 10 "")).length)
  && decide (3 ≤ (pySplit (lines.getD 11 "")).length)
  && decide (3 ≤ (pySplit (lines.getD 12 "")).length)
  && decide (2 ≤ (pySplit (lines.getD 33 "")).length)
  && (pyInt (tokAt lines 33 1)).isSome
  && decide (2 ≤ (pySplit (lines.getD 34 "")).length)
  && (pyInt (tokAt lines 34 1)).isSome

/-- The state a successful `get_bin_info` run leaves behind, written directly
in terms of the line/token positions it reads. -/
def infoUpdate (self : ParserState) (lines : List String) : ParserState :=
  { self with
    times := some
      { start := (strptimeRun (pySlice23m2 (lines.getD 1 ""))).getD ⟨1, 1, 1, 0, 0, 0⟩,
        total := tokAt lines 6 3,
        live := [tokAt lines 9 2, tokAt lines 10 2, tokAt lines 11 2, tokAt lines 12 2] },
    bufheadlen := pyInt (tokAt lines 33 1),
    eventheadlen := pyInt (tokAt lines 34 1),
    chanheadlen := some 2 }

lemma idx_ok (l : List String) (i : Nat) (h : i < l.length) :
    idx l i = Except.ok (l.getD i "") := by
  simp [idx, h]

lemma chanLive_eq (l : List String) (ch : Nat) (h1 : 9 + ch < l.length)
    (h2 : 3 ≤ (pySplit (l.getD (9 + ch) "")).length) :
    chanLive l ch = Except.ok ((pySplit (l.getD (9 + ch) "")).getD 2 "") := by
  rw [chanLive, idx_ok l (9 + ch) h1]
  exact idx_ok _ 2 (by omega)

/-- On a present, well-formed info file `get_bin_info` succeeds and produces
exactly the documented field extraction. -/
lemma get_bin_info_ok (fs : String → Option (List String)) (self : ParserState)
    (lines : List String)
    (hfs : fs (active_file_path self ++ ".ifm") = some lines)
    (hwf : wellFormedInfo lines = true) :
    get_bin_info fs self = (infoUpdate self lines, none) := by
  simp only [wellFormedInfo, Bool.and_eq_true, decide_eq_true_eq,
    Option.isSome_iff_exists] at hwf
  obtain ⟨⟨⟨⟨⟨⟨⟨⟨⟨⟨hlen, ⟨d, hd⟩⟩, h6⟩, h9⟩, h10⟩, h11⟩, h12⟩, h33⟩, ⟨b33, hb33⟩⟩,
    h34⟩, b34, hb34⟩ := hwf
  have e1 := idx_ok lines 1 (by omega)
  have e6 := idx_ok lines 6 (by omega)
  have t6 := idx_ok (pySplit (lines.getD 6 "")) 3 (by omega)
  have c0 := chanLive_eq lines 0 (by omega) (by simpa using h9)
  have c1 := chanLive_eq lines 1 (by omega) (by simpa using h10)
  have c2 := chanLive_eq lines 2 (by omega) (by simpa using h11)
  have c3 := chanLive_eq lines 3 (by omega) (by simpa using h12)
  have e33 := idx_ok lines 33 (by omega)
  have t33 := idx_ok (pySplit (lines.getD 33 "")) 1 (by omega)
  have e34 := idx_ok lines 34 (by omega)
  have t34 := idx_ok (pySplit (lines.getD 34 "")) 1 (by omega)
  rw [tokAt] at hb33 hb34
  simp only [get_bin_info, hfs, e1, hd, e6, t6, c0, c1, c2, c3, e33, t33, hb33,
    e34, t34, hb34, infoUpdate, tokAt]
  simp [hd, hb33, hb34]

lemma idx_ok_inv {l : List String} {i : Nat} {x : String} (h : idx l i = Except.ok x) :
    i < l.length ∧ x = l.getD i "" := by
  rw [idx] at h
  split at h
  · injection h with h2
    exact ⟨by assumption, h2.symm⟩
  · cases h

lemma chanLive_inv {l : List String} {ch : Nat} {x : String}
    (h : chanLive l ch = Except.ok x) :
    9 + ch < l.length ∧ 2 < (pySplit (l.getD (9 + ch) "")).length := by
  rw [chanLive] at h
  split at h
  · cases h
  next line hline =>
    obtain ⟨hb, rfl⟩ := idx_ok_inv hline
    obtain ⟨hb2, _⟩ := idx_ok_inv h
    exact ⟨hb, hb2⟩

/-- A `get_bin_info` run that raises no exception read a present,
well-formed info file. -/
lemma get_bin_info_snd_none (fs : String → Option (List String)) (self : ParserState)
    (h : (get_bin_info fs self).2 = none) :
    ∃ lines, fs (active_file_path self ++ ".ifm") = some lines ∧
      wellFormedInfo lines = true := by
  unfold get_bin_info at h
  repeat' split at h
  all_goals try simp at h
  all_goals repeat' split at h
  all_goals try simp at h
  rename_i a1 lines hfs a2 line1 h1 a3 line6 h6 a4 tok6 ht6 a5 lv0 hc0 a6 lv1 hc1
    a7 lv2 hc2 a8 lv3 hc3 a9 line33 h33 a10 t33 ht33 a11 b33 hi33 a12 line34 h34
    a13 t34 ht34 a14 b34 hi34 a15 dt hstrp
  refine ⟨lines, hfs, ?_⟩
  obtain ⟨hl1, rfl⟩ := idx_ok_inv h1
  obtain ⟨hl6, rfl⟩ := idx_ok_inv h6
  obtain ⟨hlt6, _⟩ := idx_ok_inv ht6
  obtain ⟨hl33, rfl⟩ := idx_ok_inv h33
  obtain ⟨hlt33, rfl⟩ := idx_ok_inv ht33
  obtain ⟨hl34, rfl⟩ := idx_ok_inv h34
  obtain ⟨hlt34, rfl⟩ := idx_ok_inv ht34
  have k0 : 2 < (pySplit (lines.getD 9 "")).length := (chanLive_inv hc0).2
  have k1 : 2 < (pySplit (lines.getD 10 "")).length := (chanLive_inv hc1).2
  have k2 : 2 < (pySplit (lines.getD 11 "")).length := (chanLive_inv hc2).2
  have k3 : 2 < (pySplit (lines.getD 12 "")).length := (chanLive_inv hc3).2
  simp only [wellFormedInfo, Bool.and_eq_true, decide_eq_true_eq, tokAt]
  repeat' apply And.intro
  · omega
  · rw [hstrp]
    rfl
  · omega
  · omega
  · omega
  · omega
  · omega
  · omega
  · rw [hi33]
    rfl
  · omega
  · rw [hi34]
    rfl

/-- Every exit of `get_bin_info`, successful or not, leaves
`selected_data_file`, `file_series`, `file_counter` and `buffer_no`
untouched. -/
lemma get_bin_info_frame (fs : String → Option (List String)) (self : ParserState) :
    (get_bin_info fs self).1.selected_data_file = self.selected_data_file ∧
    (get_bin_info fs self).1.file_series = self.file_series ∧
    (get_bin_info fs self).1.file_counter = self.file_counter ∧
    (get_bin_info fs self).1.buffer_no = self.buffer_no := by
  unfold get_bin_info
  repeat' split
  all_goals try exact ⟨rfl, rfl, rfl, rfl⟩
  all_goals try dsimp only
  all_goals repeat' split
  all_goals exact ⟨rfl, rfl, rfl, rfl⟩

lemma getD_set_ne (l : List String) (x : String) (i : Nat) (h : i ≠ 35) :
    (l.set 35 x).getD i "" = l.getD i "" := by
  simp [List.getD_eq_getElem?_getD, List.getElem?_set_ne (Ne.symm h)]

lemma idx_set35 (l : List String) (x : String) (i : Nat) (h : i ≠ 35) :
    idx (l.set 35 x) i = idx l i := by
  rw [idx, idx, List.length_set, getD_set_ne l x i h]

lemma chanLive_set35 (l : List String) (x : String) (ch : Nat) (h : 9 + ch ≠ 35) :
    chanLive (l.set 35 x) ch = chanLive l ch := by
  rw [chanLive, chanLive, idx_set35 l x _ h]

/-- Replacing line 35 of the info file (the channel-header-length line) does
not change the outcome of `get_bin_info` in any way. -/
lemma get_bin_info_set35 (fs : String → Option (List String)) (self : ParserState)
    (x : String) :
    get_bin_info (fun p => (fs p).map (fun l => l.set 35 x)) self =
      get_bin_info fs self := by
  have i1 := fun l => idx_set35 l x 1 (by omega)
  have i6 := fun l => idx_set35 l x 6 (by omega)
  have i33 := fun l => idx_set35 l x 33 (by omega)
  have i34 := fun l => idx_set35 l x 34 (by omega)
  have c0 := fun l => chanLive_set35 l x 0 (by omega)
  have c1 := fun l => chanLive_set35 l x 1 (by omega)
  have c2 := fun l => chanLive_set35 l x 2 (by omega)
  have c3 := fun l => chanLive_set35 l x 3 (by omega)
  cases hfs : fs (active_file_path self ++ ".ifm") with
  | none => simp only [get_bin_info, hfs, Option.map_none']
  | some lines =>
    simp only [get_bin_info, hfs, Option.map_some', i1, i6, i33, i34, c0, c1, c2, c3]

/-! ### The canonical date rendering and its round trip through `strptime`

`renderDate` produces the character sequence the claim describes as
`HH:MM:SS AM/PM Day, Mon DD, YYYY`: zero-padded two-digit time fields and
day, an upper-case AM/PM marker, an abbreviated weekday and month name, and
a four-digit year. -/

def digitChar (d : Nat) : Char := Char.ofNat (48 + d)

def twoDig (n : Nat) : List Char := [digitChar (n / 10), digitChar (n % 10)]

def fourDig (n : Nat) : List Char :=
  [digitChar (n / 1000), digitChar (n / 100 % 10), digitChar (n / 10 % 10), digitChar (n % 10)]

def ampmChars (pm : Bool) : List Char := if pm then ['P', 'M'] else ['A', 'M']

def renderDate (h12 mi se : Nat) (pm : Bool) (wd : String) (mo da yr : Nat) : List Char :=
  twoDig h12 ++ ':' :: (twoDig mi ++ ':' :: (twoDig se ++ ' ' ::
    (ampmChars pm ++ ' ' :: (wd.toList ++ ',' :: ' ' ::
      ((monthAbbrs.getD (mo - 1) "").toList ++ ' ' ::
        (twoDig da ++ ',' :: ' ' :: fourDig yr))))))

lemma pDig_digitChar (d : Nat) (h : d < 10) : pDig (digitChar d) = some d := by
  interval_cases d <;> rfl

lemma p2_canonical (n : Nat) (h : n < 100) (r : List Char) :
    p2 (twoDig n ++ r) = some (n, r) := by
  have h1 := pDig_digitChar (n / 10) (by omega)
  have h2 := pDig_digitChar (n % 10) (by omega)
  simp only [twoDig, List.cons_append, List.nil_append, p2, h1, h2]
  have : 10 * (n / 10) + n % 10 = n := by omega
  rw [this]

lemma p4_canonical (n : Nat) (h : n < 10000) (r : List Char) :
    p4 (fourDig n ++ r) = some (n, r) := by
  have h1 := pDig_digitChar (n / 1000) (by omega)
  have h2 := pDig_digitChar (n / 100 % 10) (by omega)
  have h3 := pDig_digitChar (n / 10 % 10) (by omega)
  have h4 := pDig_digitChar (n % 10) (by omega)
  simp only [fourDig, List.cons_append, List.nil_append, p4, h1, h2, h3, h4]
  have : 1000 * (n / 1000) + 100 * (n / 100 % 10) + 10 * (n / 10 % 10) + n % 10 = n := by
    omega
  rw [this]

lemma p4_exact (n : Nat) (h : n < 10000) : p4 (fourDig n) = some (n, []) := by
  have := p4_canonical n h []
  simpa using this

lemma pLit_cons (c : Char) (r : List Char) : pLit c (c :: r) = some r := by
  simp [pLit]

lemma pyIsSpace_digitChar (d : Nat) (h : d < 10) : pyIsSpace (digitChar d) = false := by
  interval_cases d <;> rfl

lemma pWs_ampm (pm : Bool) (r : List Char) :
    pWs (' ' :: (ampmChars pm ++ r)) = some (ampmChars pm ++ r) := by
  cases pm <;> rfl

lemma pAmPm_canonical (pm : Bool) (r : List Char) :
    pAmPm (ampmChars pm ++ r) = some (pm, r) := by
  cases pm <;> rfl

lemma pWs_weekday (wd : String) (hwd : wd ∈ weekdayAbbrs) (r : List Char) :
    pWs (' ' :: (wd.toList ++ r)) = some (wd.toList ++ r) := by
  fin_cases hwd <;> rfl

lemma pWeekday_canonical (wd : String) (hwd : wd ∈ weekdayAbbrs) (r : List Char) :
    pWeekday (wd.toList ++ r) = some r := by
  fin_cases hwd <;> rfl

lemma pWs_month (mo : Nat) (h1 : 1 ≤ mo) (h2 : mo ≤ 12) (r : List Char) :
    pWs (' ' :: ((monthAbbrs.getD (mo - 1) "").toList ++ r)) =
      some ((monthAbbrs.getD (mo - 1) "").toList ++ r) := by
  interval_cases mo <;> rfl

lemma pMonth_canonical (mo : Nat) (h1 : 1 ≤ mo) (h2 : mo ≤ 12) (r : List Char) :
    pMonth ((monthAbbrs.getD (mo - 1) "").toList ++ r) = some (mo, r) := by
  interval_cases mo <;> rfl

lemma pWs_digits2 (n : Nat) (h : n < 100) (r : List Char) :
    pWs (' ' :: (twoDig n ++ r)) = some (twoDig n ++ r) := by
  have h1 := pyIsSpace_digitChar (n / 10) (by omega)
  have hsp : pyIsSpace ' ' = true := rfl
  simp [pWs, twoDig, List.dropWhile, h1, hsp]

lemma pWs_digits4 (n : Nat) (h : n < 10000) :
    pWs (' ' :: fourDig n) = some (fourDig n) := by
  have h1 := pyIsSpace_digitChar (n / 1000) (by omega)
  have hsp : pyIsSpace ' ' = true := rfl
  simp [pWs, fourDig, List.dropWhile, h1, hsp]

lemma daysInMonth_le_31 (m y : Nat) : daysInMonth m y ≤ 31 := by
  rw [daysInMonth]
  split
  · split <;> omega
  · split <;> omega

/-- Parsing the canonical rendering of an in-range date recovers exactly its
components; the weekday name is accepted and discarded. -/
lemma strptime_canonical (h12 mi se : Nat) (pm : Bool) (wd : String) (mo da yr : Nat)
    (hh1 : 1 ≤ h12) (hh2 : h12 ≤ 12) (hmi : mi ≤ 59) (hse : se ≤ 59)
    (hwd : wd ∈ weekdayAbbrs) (hmo1 : 1 ≤ mo) (hmo2 : mo ≤ 12)
    (hda1 : 1 ≤ da) (hda2 : da ≤ daysInMonth mo yr) (hyr1 : 1 ≤ yr) (hyr2 : yr ≤ 9999) :
    strptimeRun ⟨renderDate h12 mi se pm wd mo da yr⟩ =
      some ⟨yr, mo, da, hour24 pm h12, mi, se⟩ := by
  have hda31 : da ≤ 31 := le_trans hda2 (daysInMonth_le_31 mo yr)
  have htl : (String.mk (renderDate h12 mi se pm wd mo da yr)).toList =
      renderDate h12 mi se pm wd mo da yr := rfl
  have htime : pTime (renderDate h12 mi se pm wd mo da yr) =
      some (h12, mi, se, ' ' :: (ampmChars pm ++ ' ' :: (wd.toList ++ ',' :: ' ' ::
        ((monthAbbrs.getD (mo - 1) "").toList ++ ' ' ::
          (twoDig da ++ ',' :: ' ' :: fourDig yr))))) := by
    rw [renderDate, pTime, p2_canonical h12 (by omega)]
    simp only [Option.some_bind']
    rw [if_neg (show ¬(h12 = 0 ∨ 12 < h12) by omega), pLit_cons]
    simp only [Option.some_bind']
    rw [p2_canonical mi (by omega)]
    simp only [Option.some_bind']
    rw [if_neg (show ¬(59 < mi) by omega), pLit_cons]
    simp only [Option.some_bind']
    rw [p2_canonical se (by omega)]
    simp only [Option.some_bind']
    rw [if_neg (show ¬(61 < se) by omega)]
  have hmark : pMarkers (' ' :: (ampmChars pm ++ ' ' :: (wd.toList ++ ',' :: ' ' ::
      ((monthAbbrs.getD (mo - 1) "").toList ++ ' ' ::
        (twoDig da ++ ',' :: ' ' :: fourDig yr))))) =
      some (pm, ' ' :: ((monthAbbrs.getD (mo - 1) "").toList ++ ' ' ::
        (twoDig da ++ ',' :: ' ' :: fourDig yr))) := by
    rw [pMarkers, pWs_ampm]
    simp only [Option.some_bind']
    rw [pAmPm_canonical]
    simp only [Option.some_bind']
    rw [pWs_weekday wd hwd]
    simp only [Option.some_bind']
    rw [pWeekday_canonical wd hwd]
    simp only [Option.some_bind']
    rw [pLit_cons]
    simp only [Option.some_bind']
  have hmdy : pMDY (' ' :: ((monthAbbrs.getD (mo - 1) "").toList ++ ' ' ::
      (twoDig da ++ ',' :: ' ' :: fourDig yr))) = some (mo, da, yr, []) := by
    rw [pMDY, pWs_month mo hmo1 hmo2]
    simp only [Option.some_bind']
    rw [pMonth_canonical mo hmo1 hmo2]
    simp only [Option.some_bind']
    rw [pWs_digits2 da (by omega)]
    simp only [Option.some_bind']
    rw [p2_canonical da (by omega)]
    simp only [Option.some_bind']
    rw [if_neg (show ¬(da = 0 ∨ 31 < da) by omega), pLit_cons]
    simp only [Option.some_bind']
    rw [pWs_digits4 yr (by omega)]
    simp only [Option.some_bind']
    rw [p4_exact yr (by omega)]
    simp only [Option.some_bind']
  rw [strptimeRun, htl, htime]
  simp only [Option.some_bind']
  rw [hmark]
  simp only [Option.some_bind']
  rw [hmdy]
  simp only [Option.some_bind']
  rw [if_neg (show ¬(([] : List Char) ≠ []) by simp), if_neg (show ¬(yr = 0) by omega),
    if_neg (show ¬(59 < se) by omega), if_neg (show ¬(daysInMonth mo yr < da) by omega)]

/-! ### Path derivation lemmas -/

lemma toString_int_length_le (n : Int) (h1 : 1 ≤ n) (h2 : n ≤ 9999) :
    (toString n).toList.length ≤ 4 := by
  obtain ⟨m, rfl⟩ := Int.eq_ofNat_of_zero_le (by omega : (0 : Int) ≤ n)
  have hm : m < 10 ^ 4 := by
    have : (m : Int) ≤ 9999 := h2
    omega
  have hr := Nat.repr_length m 4 (by norm_num) hm
  exact hr

lemma pyPad4_toList_length (n : Int) (h1 : 1 ≤ n) (h2 : n ≤ 9999) :
    (pyPad4 n).toList.length = 4 := by
  have h := toString_int_length_le n h1 h2
  have : (pyPad4 n).toList = List.leftpad 4 '0' (toString n).toList := rfl
  rw [this, List.leftpad_length]
  omega

lemma series_basename_eq (stem : String) (n : Int) (h1 : 1 ≤ n) (h2 : n ≤ 9999)
    (self : ParserState) (hsel : self.selected_data_file = stem ++ pyPad4 n ++ ".bin") :
    series_basename self = stem := by
  have hlen := pyPad4_toList_length n h1 h2
  apply String.ext
  rw [series_basename, hsel, pyDropEnd]
  have ht : (stem ++ pyPad4 n ++ ".bin").toList =
      stem.toList ++ ((pyPad4 n).toList ++ ".bin".toList) := by
    simp [List.append_assoc]
  show ((stem ++ pyPad4 n ++ ".bin").toList.take
    ((stem ++ pyPad4 n ++ ".bin").toList.length - 8)) = stem.toList
  rw [ht]
  have hl : (stem.toList ++ ((pyPad4 n).toList ++ ".bin".toList)).length - 8 =
      stem.toList.length := by
    simp only [List.length_append, hlen]
    have : (".bin".toList).length = 4 := rfl
    omega
  rw [hl, List.take_left]

lemma active_file_path_eq (stem : String) (n : Int) (h1 : 1 ≤ n) (h2 : n ≤ 9999)
    (self : ParserState) (hsel : self.selected_data_file = stem ++ pyPad4 n ++ ".bin")
    (hc : self.file_counter = n) :
    active_file_path self = pyDropEnd 4 self.selected_data_file := by
  have hlen := pyPad4_toList_length n h1 h2
  have hb := series_basename_eq stem n h1 h2 self hsel
  rw [active_file_path, hb, hc, hsel, pyDropEnd]
  apply String.ext
  have ht : (stem ++ pyPad4 n ++ ".bin").toList =
      (stem.toList ++ (pyPad4 n).toList) ++ ".bin".toList := by
    simp [List.append_assoc]
  show (stem ++ pyPad4 n).toList = ((stem ++ pyPad4 n ++ ".bin").toList.take
    ((stem ++ pyPad4 n ++ ".bin").toList.length - 4))
  rw [ht]
  have hl : ((stem.toList ++ (pyPad4 n).toList) ++ ".bin".toList).length - 4 =
      (stem.toList ++ (pyPad4 n).toList).length := by
    simp only [List.length_append]
    have : (".bin".toList).length = 4 := rfl
    omega
  rw [hl, List.take_left]
  rfl

/-- Python slice `[23:-2]` on a string assembled from a 23-character prefix,
a payload and a 2-character suffix returns exactly the payload. -/
lemma pySlice23m2_canonical (pre mid suf : List Char) (hpre : pre.length = 23)
    (hsuf : suf.length = 2) :
    pySlice23m2 ⟨pre ++ (mid ++ suf)⟩ = ⟨mid⟩ := by
  rw [pySlice23m2]
  have ht : (String.mk (pre ++ (mid ++ suf))).toList = pre ++ (mid ++ suf) := rfl
  rw [ht]
  have hl : (pre ++ (mid ++ suf)).length - 2 = pre.length + mid.length := by
    simp only [List.length_append]
    omega
  rw [hl, List.take_append mid.length]
  have : (mid ++ suf).take mid.length = mid := List.take_left mid suf
  rw [this, ← hpre, List.drop_left]

/-! ### Sample info files used to witness the theorems -/

/-- A well-formed 36-line info file as `readlines()` would return it. -/
def sampleLines : List String :=
  ["PIXIE LIST MODE DATA\n",
   "Run Start Time at UTC  10:25:37 PM Wed, Apr 13, 2011 \n",
   "FILLER\n", "FILLER\n", "FILLER\n", "FILLER\n",
   "TOTAL RUN TIME 300.5\n",
   "FILLER\n", "FILLER\n",
   "LIVE TIME 295.2 s\n",
   "LIVE TIME 293.8 s\n",
   "LIVE TIME 296.1 s\n",
   "LIVE TIME 290.0 s\n",
   "FILLER\n", "FILLER\n", "FILLER\n", "FILLER\n", "FILLER\n",
   "FILLER\n", "FILLER\n", "FILLER\n", "FILLER\n", "FILLER\n",
   "FILLER\n", "FILLER\n", "FILLER\n", "FILLER\n", "FILLER\n",
   "FILLER\n", "FILLER\n", "FILLER\n", "FILLER\n", "FILLER\n",
   "BUFHEADLEN 6\n",
   "EVENTHEADLEN 3\n",
   "CHANHEADLEN 9\n"]

/-- A second info file agreeing with `sampleLines` at every documented
line/token position but differing everywhere else (including its length). -/
def sampleLines2 : List String :=
  ["completely different line zero\n",
   "XGNORED PREAMBLE FIELDX10:25:37 PM Wed, Apr 13, 2011!\n",
   "a\n", "b\n", "c\n", "d\n",
   "x y z 300.5 extra tokens\n",
   "e\n", "f\n",
   "p q 295.2\n",
   "p q 293.8 extra\n",
   "p q 296.1\n",
   "p q 290.0\n",
   "g\n", "h\n", "i\n", "j\n", "k\n",
   "l\n", "m\n", "n\n", "o\n", "p\n",
   "q\n", "r\n", "s\n", "t\n", "u\n",
   "v\n", "w\n", "x\n", "y\n", "z\n",
   "other 6 trailing\n",
   "words 3\n",
   "DIFFERENT 7\n",
   "extra line beyond the schema\n"]

/-- Like `sampleLines`, but the total-time field (line 6, 4th token) holds
text that is not a duration. -/
def durLines : List String :=
  ["PIXIE LIST MODE DATA\n",
   "Run Start Time at UTC  10:25:37 PM Wed, Apr 13, 2011 \n",
   "FILLER\n", "FILLER\n", "FILLER\n", "FILLER\n",
   "TOTAL RUN TIME garbage\n",
   "FILLER\n", "FILLER\n",
   "LIVE TIME 295.2 s\n",
   "LIVE TIME 293.8 s\n",
   "LIVE TIME 296.1 s\n",
   "LIVE TIME 290.0 s\n",
   "FILLER\n", "FILLER\n", "FILLER\n", "FILLER\n", "FILLER\n",
   "FILLER\n", "FILLER\n", "FILLER\n", "FILLER\n", "FILLER\n",
   "FILLER\n", "FILLER\n", "FILLER\n", "FILLER\n", "FILLER\n",
   "FILLER\n", "FILLER\n", "FILLER\n", "FILLER\n", "FILLER\n",
   "BUFHEADLEN 6\n",
   "EVENTHEADLEN 3\n",
   "CHANHEADLEN 9\n"]

def sampleFs : String → Option (List String) := fun _ => some sampleLines

def sampleFs2 : String → Option (List String) := fun _ => some sampleLines2

def durFs : String → Option (List String) := fun _ => some durLines

def sampleParser : ParserState := mkParser "/data/run0001.bin"

/-! ### The claims -/

/-- C1: for every well-formed info file, `get_bin_info` extracts the total
real time as the 4th whitespace token of line 6, the live time for channels
0-3 as the 3rd whitespace token of lines 9-12, the buffer header length as
the integer 2nd whitespace token of line 33 and the event header length as
the integer 2nd whitespace token of line 34 (0-indexed lines). -/
theorem claim_c1_metadata_extraction (fs : String → Option (List String))
    (self : ParserState) (lines : List String)
    (hfs : fs (active_file_path self ++ ".ifm") = some lines)
    (hwf : wellFormedInfo lines = true) :
    (get_bin_info fs self).2 = none ∧
    (get_bin_info fs self).1.times.map Times.total = some (tokAt lines 6 3) ∧
    (get_bin_info fs self).1.times.map Times.live =
      some [tokAt lines 9 2, tokAt lines 10 2, tokAt lines 11 2, tokAt lines 12 2] ∧
    (get_bin_info fs self).1.bufheadlen = pyInt (tokAt lines 33 1) ∧
    (get_bin_info fs self).1.eventheadlen = pyInt (tokAt lines 34 1) := by
  rw [get_bin_info_ok fs self lines hfs hwf]
  simp [infoUpdate]

theorem claim_c1_witness :
    (get_bin_info sampleFs sampleParser).2 = none ∧
    (get_bin_info sampleFs sampleParser).1.times.map Times.total =
      some (tokAt sampleLines 6 3) ∧
    (get_bin_info sampleFs sampleParser).1.times.map Times.live =
      some [tokAt sampleLines 9 2, tokAt sampleLines 10 2, tokAt sampleLines 11 2,
        tokAt sampleLines 12 2] ∧
    (get_bin_info sampleFs sampleParser).1.bufheadlen = pyInt (tokAt sampleLines 33 1) ∧
    (get_bin_info sampleFs sampleParser).1.eventheadlen = pyInt (tokAt sampleLines 34 1) :=
  claim_c1_metadata_extraction sampleFs sampleParser sampleLines rfl (by decide)

/-- C2: the channel header length stored by `get_bin_info` is the literal 2
whenever the call succeeds, and replacing line 35 of the info file with any
other content does not change the outcome of the call in any way. -/
theorem claim_c2_chanheadlen_fixed (fs : String → Option (List String))
    (self : ParserState) (x : String) :
    ((get_bin_info fs self).2 = none → (get_bin_info fs self).1.chanheadlen = some 2) ∧
    get_bin_info (fun p => (fs p).map (fun l => l.set 35 x)) self = get_bin_info fs self := by
  refine ⟨?_, get_bin_info_set35 fs self x⟩
  intro h
  obtain ⟨lines, hfs, hwf⟩ := get_bin_info_snd_none fs self h
  rw [get_bin_info_ok fs self lines hfs hwf]
  rfl

theorem claim_c2_witness :
    (get_bin_info sampleFs sampleParser).1.chanheadlen = some 2 :=
  (claim_c2_chanheadlen_fixed sampleFs sampleParser "x").1 (by decide)

/-- C3: for every well-formed info file whose line 1 carries, after exactly
23 characters and before its final 2 characters, a date rendered in the
fixed `HH:MM:SS AM/PM Day, Mon DD, YYYY` format, `get_bin_info` parses the
run start time from exactly that substring with exactly that format. -/
theorem claim_c3_run_start_time (fs : String → Option (List String))
    (self : ParserState) (lines : List String) (pre suf : List Char)
    (h12 mi se : Nat) (pm : Bool) (wd : String) (mo da yr : Nat)
    (hfs : fs (active_file_path self ++ ".ifm") = some lines)
    (hwf : wellFormedInfo lines = true)
    (hline : lines.getD 1 "" = ⟨pre ++ (renderDate h12 mi se pm wd mo da yr ++ suf)⟩)
    (hpre : pre.length = 23) (hsuf : suf.length = 2)
    (hh1 : 1 ≤ h12) (hh2 : h12 ≤ 12) (hmi : mi ≤ 59) (hse : se ≤ 59)
    (hwd : wd ∈ weekdayAbbrs) (hmo1 : 1 ≤ mo) (hmo2 : mo ≤ 12)
    (hda1 : 1 ≤ da) (hda2 : da ≤ daysInMonth mo yr) (hyr1 : 1 ≤ yr) (hyr2 : yr ≤ 9999) :
    (get_bin_info fs self).2 = none ∧
    (get_bin_info fs self).1.times.map Times.start =
      some ⟨yr, mo, da, hour24 pm h12, mi, se⟩ := by
  rw [get_bin_info_ok fs self lines hfs hwf]
  refine ⟨rfl, ?_⟩
  simp only [infoUpdate, Option.map_some']
  rw [hline, pySlice23m2_canonical pre _ suf hpre hsuf,
    strptime_canonical h12 mi se pm wd mo da yr hh1 hh2 hmi hse hwd hmo1 hmo2 hda1
      hda2 hyr1 hyr2]
  rfl

theorem claim_c3_witness :
    (get_bin_info sampleFs sampleParser).2 = none ∧
    (get_bin_info sampleFs sampleParser).1.times.map Times.start =
      some ⟨2011, 4, 13, hour24 true 10, 25, 37⟩ :=
  claim_c3_run_start_time sampleFs sampleParser sampleLines
    ("Run Start Time at UTC  ".toList) ([' ', '\n']) 10 25 37 true "Wed" 4 13 2011
    rfl (by decide) (by decide) (by decide) (by decide) (by decide) (by decide)
    (by decide) (by decide) (by decide) (by decide) (by decide) (by decide)
    (by decide) (by decide) (by decide)

/-- C4 (amended): `get_bin_info` raises an exception exactly when the info
file is missing or not well-formed (too few lines or tokens, unparseable
date on line 1, non-integer header-length tokens on lines 33-34); the
exception is the call's result, so it reaches the caller unswallowed.
Total/live-time tokens are stored verbatim and never validated as
durations. -/
theorem claim_c4_failure_characterization (fs : String → Option (List String))
    (self : ParserState) :
    (get_bin_info fs self).2.isSome = true ↔
      (fs (active_file_path self ++ ".ifm") = none ∨
        ∃ lines, fs (active_file_path self ++ ".ifm") = some lines ∧
          wellFormedInfo lines = false) := by
  constructor
  · intro h
    cases hfs : fs (active_file_path self ++ ".ifm") with
    | none => exact Or.inl rfl
    | some lines =>
      refine Or.inr ⟨lines, rfl, ?_⟩
      cases hq : wellFormedInfo lines with
      | false => rfl
      | true =>
        rw [get_bin_info_ok fs self lines hfs hq] at h
        simp at h
  · intro h
    rcases h with hfs | ⟨lines, hfs, hwf⟩
    · simp [get_bin_info, hfs]
    · cases hq : (get_bin_info fs self).2 with
      | some e => rfl
      | none =>
        obtain ⟨lines2, hfs2, hwf2⟩ := get_bin_info_snd_none fs self hq
        rw [hfs] at hfs2
        injection hfs2 with he
        rw [← he] at hwf2
        rw [hwf2] at hwf
        cases hwf

theorem claim_c4_witness :
    (get_bin_info (fun _ => none) sampleParser).2.isSome = true :=
  (claim_c4_failure_characterization (fun _ => none) sampleParser).mpr (Or.inl rfl)

/-- C4 counterexample to the claim as frozen: an info file whose total-time
field (line 6, 4th token) is the word `garbage`, which does not parse as a
duration, yet `get_bin_info` raises nothing and stores the word verbatim. -/
theorem claim_c4_counterexample :
    tokAt durLines 6 3 = "garbage" ∧
    pyInt (tokAt durLines 6 3) = none ∧
    (get_bin_info durFs sampleParser).2 = none ∧
    (get_bin_info durFs sampleParser).1.times.map Times.total = some "garbage" := by
  refine ⟨by decide, by decide, by decide, by decide⟩

/-- C5: two well-formed info files that agree on the documented positions
(line 1 date substring, line 6 token 4, lines 9-12 token 3, lines 33-34
token 2) yield exactly the same metadata, whatever else they contain. -/
theorem claim_c5_noninterference (fs1 fs2 : String → Option (List String))
    (self1 self2 : ParserState) (lines1 lines2 : List String)
    (hfs1 : fs1 (active_file_path self1 ++ ".ifm") = some lines1)
    (hfs2 : fs2 (active_file_path self2 ++ ".ifm") = some lines2)
    (hwf1 : wellFormedInfo lines1 = true) (hwf2 : wellFormedInfo lines2 = true)
    (hdate : pySlice23m2 (lines1.getD 1 "") = pySlice23m2 (lines2.getD 1 ""))
    (h6 : tokAt lines1 6 3 = tokAt lines2 6 3)
    (h9 : tokAt lines1 9 2 = tokAt lines2 9 2)
    (h10 : tokAt lines1 10 2 = tokAt lines2 10 2)
    (h11 : tokAt lines1 11 2 = tokAt lines2 11 2)
    (h12 : tokAt lines1 12 2 = tokAt lines2 12 2)
    (h33 : tokAt lines1 33 1 = tokAt lines2 33 1)
    (h34 : tokAt lines1 34 1 = tokAt lines2 34 1) :
    (get_bin_info fs1 self1).2 = none ∧ (get_bin_info fs2 self2).2 = none ∧
    (get_bin_info fs1 self1).1.times = (get_bin_info fs2 self2).1.times ∧
    (get_bin_info fs1 self1).1.bufheadlen = (get_bin_info fs2 self2).1.bufheadlen ∧
    (get_bin_info fs1 self1).1.eventheadlen = (get_bin_info fs2 self2).1.eventheadlen ∧
    (get_bin_info fs1 self1).1.chanheadlen = (get_bin_info fs2 self2).1.chanheadlen := by
  rw [get_bin_info_ok fs1 self1 lines1 hfs1 hwf1,
    get_bin_info_ok fs2 self2 lines2 hfs2 hwf2]
  refine ⟨rfl, rfl, ?_, ?_, ?_, rfl⟩
  · simp only [infoUpdate]
    rw [hdate, h6, h9, h10, h11, h12]
  · simp only [infoUpdate]
    rw [h33]
  · simp only [infoUpdate]
    rw [h34]

theorem claim_c5_witness :
    (get_bin_info sampleFs sampleParser).2 = none ∧
    (get_bin_info sampleFs2 (mkParser "/other/series0001.bin")).2 = none ∧
    (get_bin_info sampleFs sampleParser).1.times =
      (get_bin_info sampleFs2 (mkParser "/other/series0001.bin")).1.times ∧
    (get_bin_info sampleFs sampleParser).1.bufheadlen =
      (get_bin_info sampleFs2 (mkParser "/other/series0001.bin")).1.bufheadlen ∧
    (get_bin_info sampleFs sampleParser).1.eventheadlen =
      (get_bin_info sampleFs2 (mkParser "/other/series0001.bin")).1.eventheadlen ∧
    (get_bin_info sampleFs sampleParser).1.chanheadlen =
      (get_bin_info sampleFs2 (mkParser "/other/series0001.bin")).1.chanheadlen :=
  claim_c5_noninterference sampleFs sampleFs2 sampleParser
    (mkParser "/other/series0001.bin") sampleLines sampleLines2 rfl rfl
    (by decide) (by decide) (by decide) (by decide) (by decide) (by decide)
    (by decide) (by decide) (by decide) (by decide)

/-- C6: `get_bin_info` is a pure read of the info file: whether it succeeds
or raises, the selected data file, file series, file counter and buffer
counter of the parser are left unchanged. -/
theorem claim_c6_pure_read (fs : String → Option (List String)) (self : ParserState) :
    (get_bin_info fs self).1.selected_data_file = self.selected_data_file ∧
    (get_bin_info fs self).1.file_series = self.file_series ∧
    (get_bin_info fs self).1.file_counter = self.file_counter ∧
    (get_bin_info fs self).1.buffer_no = self.buffer_no :=
  get_bin_info_frame fs self

/-- C7: the three output table schemas are exactly the three record shapes
of the data model, with the listed column order (positions 0..k) and
types. -/
theorem claim_c7_schemas :
    GammaEvent.map ColDescr.pos = List.range 7 ∧
    GammaEvent.map (fun c => (c.name, c.ctype)) =
      [("energy_0", PyTablesColType.int32), ("energy_1", PyTablesColType.int32),
       ("energy_2", PyTablesColType.int32), ("deltaT_01", PyTablesColType.float32),
       ("deltaT_02", PyTablesColType.float32), ("deltaT_12", PyTablesColType.float32),
       ("timestamp", PyTablesColType.float32)] ∧
    AggEvent1.map ColDescr.pos = List.range 2 ∧
    AggEvent1.map (fun c => (c.name, c.ctype)) =
      [("energy", PyTablesColType.int32), ("timestamp", PyTablesColType.float32)] ∧
    AggEvent2.map ColDescr.pos = List.range 3 ∧
    AggEvent2.map (fun c => (c.name, c.ctype)) =
      [("energy_1", PyTablesColType.int32), ("energy_2", PyTablesColType.int32),
       ("timestamp", PyTablesColType.float32)] := by
  refine ⟨?_, ?_, ?_, ?_, ?_, ?_⟩ <;> rfl

/-- C8: the claim says `data_cwd` derives from the instance's own base
filename, but `_get_data_cwd` consults the module-global `parser` instead of
`self`: for an instance selecting `/adir/run0001.bin` while the global
parser selects `/gdir/run0001.bin`, the property returns `/gdir`, not
`/adir`. -/
theorem claim_c8_data_cwd_global_bug :
    data_cwd (mkParser "/adir/run0001.bin") (mkParser "/gdir/run0001.bin") = "/gdir" ∧
    dirname (series_basename (mkParser "/adir/run0001.bin")) = "/adir" ∧
    data_cwd (mkParser "/adir/run0001.bin") (mkParser "/gdir/run0001.bin") ≠
      dirname (series_basename (mkParser "/adir/run0001.bin")) := by
  refine ⟨by decide, by decide, by decide⟩

/-- C9: for a selected path ending in the 4 digits of `n` (1 ≤ n ≤ 9999)
followed by `.bin`, `series_basename` strips exactly those 8 trailing
characters, and with `file_counter = n` the active file path reproduces the
selected path with its `.bin` extension removed. -/
theorem claim_c9_path_roundtrip (stem : String) (n : Int) (self : ParserState)
    (h1 : 1 ≤ n) (h2 : n ≤ 9999)
    (hsel : self.selected_data_file = stem ++ pyPad4 n ++ ".bin")
    (hc : self.file_counter = n) :
    series_basename self = stem ∧
    active_file_path self = pyDropEnd 4 self.selected_data_file :=
  ⟨series_basename_eq stem n h1 h2 self hsel,
   active_file_path_eq stem n h1 h2 self hsel hc⟩

theorem claim_c9_witness :
    series_basename sampleParser = "/data/run" ∧
    active_file_path sampleParser = pyDropEnd 4 sampleParser.selected_data_file :=
  claim_c9_path_roundtrip "/data/run" 1 sampleParser (by decide) (by decide)
    (by decide) rfl

/-- C10: `get_file_series` clears the stored list before repopulating it, so
repeated calls with the same directory contents return the same list and the
stored series never accumulates duplicates. -/
theorem claim_c10_get_file_series_idempotent (g : ParserState)
    (listdir : List String) (ext : String) (self : ParserState) :
    get_file_series g listdir ext (get_file_series g listdir ext self).2 =
      get_file_series g listdir ext self ∧
    (get_file_series g listdir ext self).2.file_series =
      (get_file_series g listdir ext self).1 :=
  ⟨rfl, rfl⟩

end Pyramds
